import Mathlib

/-!
Shallow embedding of the client-side session and data-synchronization layer
of the Smart Tourist Safety Monitoring System dashboard (src/App.js).

Conventions of the embedding:
  - A JSON field that may be absent is an `Option`.
  - An asynchronous call that may fail (a rejected promise) is an
    `Except Unit` value: `.ok` is a resolved response body, `.error ()` a
    rejection (network failure / thrown error).
  - JavaScript truthiness is modelled explicitly where the source relies on
    it: a number is falsy exactly when it is 0 (or absent), a string is
    falsy exactly when it is empty (or absent).
-/

/-- Tourist entity as produced by the backend / mock data (App.js lines 90 to 95). -/
structure Tourist where
  id : String
  name : String
  location : Rat × Rat
  status : String
  lastUpdate : String
  phone : String
  safetyScore : Nat
  deriving DecidableEq

/-- Incident entity (App.js lines 97 to 101). `severity` is an `Option` because the
renderer tolerates a missing severity field. -/
structure Incident where
  id : String
  touristName : String
  type : String
  location : Rat × Rat
  timestamp : String
  status : String
  severity : Option String
  deriving DecidableEq

/-- Server-computed dashboard aggregates (App.js lines 155 to 160). Every field is an
`Option Nat`: the initial seed object has no `total_users`, and a server response
may omit any of them. -/
structure DashboardStats where
  active_tourists : Option Nat
  active_incidents : Option Nat
  safe_tourists : Option Nat
  efirs_today : Option Nat
  total_users : Option Nat
  deriving DecidableEq

/-- Officer record returned by the auth endpoints. Only `username` is branched on
by the client (App.js line 170), so it is the one field modelled as possibly
absent. -/
structure Officer where
  username : Option String
  full_name : String
  email : String
  phone : String
  department : String
  rank : String
  station_id : String
  role : String
  deriving DecidableEq

/-- The Domain Model owned by the aggregation coordinator: the three pieces of
state set by `loadDashboardData` (App.js lines 153 to 160). -/
structure AppModel where
  dashboardStats : DashboardStats
  tourists : List Tourist
  incidents : List Incident
  deriving DecidableEq

/-- JavaScript truthiness of a possibly-absent string: `undefined` and the empty
string are falsy, any other string is truthy. -/
def jsTruthyStr : Option String → Bool
  | none => false
  | some s => s != ""

/-- JavaScript `a || b` on a possibly-absent number: `undefined` and `0` are
falsy, so the fallback `b` is used exactly when `a` is absent or zero. -/
def jsOrNat : Option Nat → Nat → Nat
  | some n, fallback => if n = 0 then fallback else n
  | none, fallback => fallback

/-- Semantics of `Promise.all` on three tasks: resolves with the triple when all
three resolve, rejects as soon as any one rejects. -/
def promiseAll3 {α β γ : Type} :
    Except Unit α → Except Unit β → Except Unit γ → Except Unit (α × β × γ)
  | .ok a, .ok b, .ok c => .ok (a, b, c)
  | .error e, _, _ => .error e
  | .ok _, .error e, _ => .error e
  | .ok _, .ok _, .error e => .error e

/-- True exactly on a rejected result. -/
def isError {α : Type} : Except Unit α → Bool
  | .error _ => true
  | .ok _ => false

/-- `loadDashboardData` (App.js lines 192 to 207): awaits `Promise.all` of the three
dashboard requests; on success applies `setDashboardStats`, `setTourists`,
`setIncidents`; on rejection the `catch` block only logs, leaving the model as
it was. The function maps the prior model and the three request outcomes to the
model after the handler has run. -/
def loadDashboardData (m : AppModel) (stats : Except Unit DashboardStats)
    (touristsData : Except Unit (List Tourist))
    (incidentsData : Except Unit (List Incident)) : AppModel :=
  match promiseAll3 stats touristsData incidentsData with
  | .ok (s, t, i) => ⟨s, t, i⟩
  | .error _ => m

/-- Response body of `POST /auth/login` as inspected by `handleLogin`
(App.js lines 272 to 283): only `access_token` is branched on. -/
structure LoginResponse where
  access_token : Option String
  user : Option Officer

/-- Client state relevant to session handling: the login flag, the current
user, the persisted token in localStorage, and the Domain Model. -/
structure AppState where
  isLoggedIn : Bool
  currentUser : Option Officer
  authToken : Option String
  model : AppModel
  deriving DecidableEq

/-- Asynchronous completions that mutate the session or the Domain Model:
the resolution of a login request (App.js lines 272 to 289), a click on logout
(lines 293 to 298), and the settlement of the `Promise.all` of one dashboard
refresh cycle (lines 192 to 207). -/
inductive Event where
  | loginResponse (resp : LoginResponse)
  | logout
  | dashboardResponse (stats : Except Unit DashboardStats)
      (touristsData : Except Unit (List Tourist))
      (incidentsData : Except Unit (List Incident))

/-- One event handler dispatch, faithful to the source handlers. Note that
`dashboardResponse` applies `loadDashboardData` unconditionally: the source
performs no session, sequence or token check before calling the three state
setters. -/
def step (s : AppState) : Event → AppState
  | .loginResponse resp =>
    match resp.access_token with
    | some tok =>
      { s with authToken := some tok, isLoggedIn := true, currentUser := resp.user }
    | none => s
  | .logout => { s with authToken := none, isLoggedIn := false, currentUser := none }
  | .dashboardResponse stats touristsData incidentsData =>
    { s with model := loadDashboardData s.model stats touristsData incidentsData }

/-- Run a sequence of event completions in arrival order. -/
def run (s : AppState) (events : List Event) : AppState :=
  events.foldl step s

/-- Outcome of the startup token verification, recording the observable effects
of `verifyToken`: the login flag, the stored user, whether the persisted token
is still in localStorage, and whether `loadDashboardData` was invoked. -/
structure VerifyOutcome where
  isLoggedIn : Bool
  currentUser : Option Officer
  tokenKept : Bool
  dashboardFetchTriggered : Bool
  deriving DecidableEq

/-- `verifyToken` (App.js lines 167 to 181): calls `getCurrentUser`; if the response
has a truthy `username`, logs in and triggers the dashboard fetch; otherwise,
or when the call throws, removes the persisted token and stays logged out. -/
def verifyToken (resp : Except Unit Officer) : VerifyOutcome :=
  match resp with
  | .ok userData =>
    if jsTruthyStr userData.username then ⟨true, some userData, true, true⟩
    else ⟨false, none, false, false⟩
  | .error _ => ⟨false, none, false, false⟩

/-- Stats card for Active Tourists (App.js line 666):
`dashboardStats.active_tourists || tourists.length`. -/
def displayedActiveTourists (stats : DashboardStats) (tourists : List Tourist) : Nat :=
  jsOrNat stats.active_tourists tourists.length

/-- Stats card for Active Incidents (App.js line 677):
`dashboardStats.active_incidents || incidents.filter(i => i.status === 'active').length`. -/
def displayedActiveIncidents (stats : DashboardStats) (incidents : List Incident) : Nat :=
  jsOrNat stats.active_incidents (incidents.filter (fun i => i.status == "active")).length

/-- Stats card for Safe Tourists (App.js line 689):
`dashboardStats.safe_tourists || tourists.filter(t => t.status === 'safe').length`. -/
def displayedSafeTourists (stats : DashboardStats) (tourists : List Tourist) : Nat :=
  jsOrNat stats.safe_tourists (tourists.filter (fun t => t.status == "safe")).length

/-- Stats card for E-FIRs Today (App.js line 700): `dashboardStats.efirs_today || 3`. -/
def displayedEfirsToday (stats : DashboardStats) : Nat :=
  jsOrNat stats.efirs_today 3

/-- `getStatusColor` (App.js lines 301 to 308): switch on the status string with a
default branch. -/
def getStatusColor (status : String) : String :=
  if status == "safe" then "#22c55e"
  else if status == "alert" then "#f59e0b"
  else if status == "emergency" then "#ef4444"
  else "#6b7280"

/-- JavaScript `s.toLowerCase()`: lowercase every character. -/
def jsToLowerCase (s : String) : String :=
  String.mk (s.toList.map Char.toLower)

/-- JavaScript `haystack.includes(pat)`: `pat` occurs in `haystack` as a
contiguous substring (always true for the empty pattern). -/
def jsIncludes (haystack pat : String) : Bool :=
  decide (pat.toList <:+: haystack.toList)

/-- Tourist list filter (App.js lines 821 to 824):
`tourists.filter(t => t.name.toLowerCase().includes(searchQuery.toLowerCase()))`. -/
def filterTourists (tourists : List Tourist) (searchQuery : String) : List Tourist :=
  tourists.filter (fun tourist =>
    jsIncludes (jsToLowerCase tourist.name) (jsToLowerCase searchQuery))

/-- Incident severity dot (App.js lines 878 to 881, identically lines 1227 to 1230):
red for high, yellow for medium, green otherwise. An absent severity compares
unequal to both literals, so it also falls through to green. -/
def incidentSeverityColor (severity : Option String) : String :=
  if severity == some "high" then "bg-red-500"
  else if severity == some "medium" then "bg-yellow-500"
  else "bg-green-500"

/-- The registration form state (App.js lines 131 to 142). -/
structure RegisterData where
  username : String
  email : String
  password : String
  confirmPassword : String
  full_name : String
  phone : String
  department : String
  rank : String
  station_id : String
  role : String
  deriving DecidableEq

/-- JavaScript `s.trim()`: strip leading and trailing whitespace. -/
def jsTrim (s : String) : String :=
  String.mk (((s.toList.dropWhile Char.isWhitespace).reverse.dropWhile
    Char.isWhitespace).reverse)

/-- The `requiredFields` array of `handleRegister` (App.js line 223). -/
def requiredFields : List String :=
  ["username", "email", "password", "full_name", "phone", "department", "rank", "station_id"]

/-- Dynamic field access `registerData[field]` for the required-field names. -/
def fieldValue (d : RegisterData) : String → String := fun field =>
  if field == "username" then d.username
  else if field == "email" then d.email
  else if field == "password" then d.password
  else if field == "full_name" then d.full_name
  else if field == "phone" then d.phone
  else if field == "department" then d.department
  else if field == "rank" then d.rank
  else if field == "station_id" then d.station_id
  else ""

/-- `requiredFields.filter(field => !registerData[field].trim())` (App.js line 224):
a field is missing when its value is empty after trimming, the only case in
which the trimmed string is falsy. -/
def missingFields (d : RegisterData) : List String :=
  requiredFields.filter (fun field => jsTrim (fieldValue d field) == "")

/-- Body of `POST /auth/register`: the form data with `confirmPassword` removed
by the rest-spread at App.js line 233. -/
structure RegistrationPayload where
  username : String
  email : String
  password : String
  full_name : String
  phone : String
  department : String
  rank : String
  station_id : String
  role : String
  deriving DecidableEq

/-- The rest-spread `const [confirmPassword-omitted] = registerData` (App.js line 233). -/
def stripConfirmPassword (d : RegisterData) : RegistrationPayload :=
  ⟨d.username, d.email, d.password, d.full_name, d.phone, d.department, d.rank,
    d.station_id, d.role⟩

/-- Observable outcome of the synchronous validation part of `handleRegister`:
either a local validation error with its message (returned before the network
call), or the decision to call the gateway with the given payload. -/
inductive RegisterOutcome where
  | validationError (message : String)
  | gatewayRegister (payload : RegistrationPayload)
  deriving DecidableEq

/-- `handleRegister` up to the network call (App.js lines 210 to 234): password
mismatch aborts first, then any missing required field aborts with the joined
list of names, and only otherwise is `apiService.register` reached. -/
def handleRegister (d : RegisterData) : RegisterOutcome :=
  if d.password != d.confirmPassword then
    .validationError "Passwords do not match"
  else if (missingFields d).length > 0 then
    .validationError ("Please fill in all required fields: " ++
      String.intercalate ", " (missingFields d))
  else
    .gatewayRegister (stripConfirmPassword d)

/-! Concrete data used by witnesses and counterexamples. Coordinates are
whole-number rationals; no claim computes with them. -/

/-- Tourist of the C1 scenario of the spec: id 1, status safe. -/
def c1Tourist : Tourist :=
  ⟨"1", "John Doe", (28, 77), "safe", "2 mins ago", "+91-9876543210", 85⟩

/-- A concrete pre-refresh Domain Model for the C1 witness. -/
def c1PriorModel : AppModel := ⟨⟨some 4, some 1, some 3, some 3, none⟩, [], []⟩

/-- C1: whenever any one of the three dashboard requests of a refresh cycle
fails, the Domain Model after `loadDashboardData` equals the pre-refresh
snapshot: the rejection of `Promise.all` skips all three setters, so no
partial update is applied and stats of one cycle are never combined with
collections of another. -/
theorem c1_refresh_failure_keeps_snapshot (m : AppModel)
    (stats : Except Unit DashboardStats) (touristsData : Except Unit (List Tourist))
    (incidentsData : Except Unit (List Incident))
    (h : isError stats = true ∨ isError touristsData = true ∨
      isError incidentsData = true) :
    loadDashboardData m stats touristsData incidentsData = m := by
  cases stats with
  | error e => cases touristsData <;> cases incidentsData <;> rfl
  | ok s =>
    cases touristsData with
    | error e => cases incidentsData <;> rfl
    | ok t =>
      cases incidentsData with
      | error e => rfl
      | ok i => simp [isError] at h

/-- Witness for C1 at the scenario of the spec: the stats call throws while
tourists and incidents succeed, and the model is unchanged. -/
theorem c1_refresh_failure_keeps_snapshot_witness :
    isError (Except.error () : Except Unit DashboardStats) = true ∧
    loadDashboardData c1PriorModel (.error ()) (.ok [c1Tourist]) (.ok [])
      = c1PriorModel :=
  ⟨rfl, c1_refresh_failure_keeps_snapshot c1PriorModel (.error ()) (.ok [c1Tourist])
    (.ok []) (Or.inl rfl)⟩

/-- Dashboard aggregates delivered to the stale refresh cycle A. -/
def cycleAStats : DashboardStats := ⟨some 4, some 1, some 3, some 3, none⟩

/-- Dashboard aggregates delivered to the fresh refresh cycle B. -/
def cycleBStats : DashboardStats := ⟨some 10, some 2, some 8, some 1, some 5⟩

/-- State at the moment cycle A's three requests are in flight. -/
def c2Start : AppState :=
  ⟨true, none, some "tokenA", ⟨⟨none, none, none, none, none⟩, [], []⟩⟩

/-- Arrivals after cycle A was started: logout, a successful re-login that
starts cycle B, and cycle B's responses (cycle B completed). -/
def c2ToB : List Event :=
  [.logout, .loginResponse ⟨some "tokenB", none⟩,
    .dashboardResponse (.ok cycleBStats) (.ok []) (.ok [])]

/-- State after cycle B has completed. -/
def c2AfterB : AppState := run c2Start c2ToB

/-- C2: the dashboard-response handler applies its results with no session,
sequence or token check, so when the responses of the pre-logout cycle A
arrive after the newer cycle B has completed, they overwrite B's Domain
Model instead of being discarded. -/
theorem c2_stale_response_overwrites :
    c2AfterB.model.dashboardStats = cycleBStats ∧
    (step c2AfterB
        (.dashboardResponse (.ok cycleAStats) (.ok []) (.ok []))).model.dashboardStats
      = cycleAStats ∧
    cycleAStats ≠ cycleBStats :=
  ⟨rfl, rfl, by decide⟩

/-- Stats object whose server-supplied active_incidents is 0. -/
def c3ZeroStats : DashboardStats := ⟨some 5, some 0, some 3, some 2, none⟩

/-- One currently active incident. -/
def c3ActiveIncident : Incident :=
  ⟨"INC9", "Mike Johnson", "Emergency Alert", (28, 77), "2024-09-25 14:30",
    "active", some "high"⟩

/-- Counterexample to C3: the server supplies active_incidents = 0, yet the
displayed count is the locally derived 1, because the JavaScript or-operator
treats 0 as falsy and falls back. -/
theorem c3_zero_stat_counterexample :
    c3ZeroStats.active_incidents = some 0 ∧
    displayedActiveIncidents c3ZeroStats [c3ActiveIncident] = 1 ∧
    displayedActiveIncidents c3ZeroStats [c3ActiveIncident] ≠ 0 := by
  decide

/-- C3 as amended: when a server-computed aggregate is present AND nonzero,
the displayed count equals the server-supplied value; a present value of 0 is
falsy and is replaced by the local fallback. -/
theorem c3_amended_nonzero_stat_displayed (stats : DashboardStats)
    (tourists : List Tourist) (incidents : List Incident) (n : Nat) (hn : n ≠ 0) :
    (stats.active_tourists = some n → displayedActiveTourists stats tourists = n) ∧
    (stats.active_incidents = some n → displayedActiveIncidents stats incidents = n) ∧
    (stats.safe_tourists = some n → displayedSafeTourists stats tourists = n) ∧
    (stats.efirs_today = some n → displayedEfirsToday stats = n) := by
  refine ⟨fun h => ?_, fun h => ?_, fun h => ?_, fun h => ?_⟩ <;>
    simp [displayedActiveTourists, displayedActiveIncidents, displayedSafeTourists,
      displayedEfirsToday, jsOrNat, h, hn]

/-- Stats object with every aggregate present and nonzero. -/
def c3NonzeroStats : DashboardStats := ⟨some 7, some 7, some 7, some 7, none⟩

/-- Witness for the amended C3 at a concrete nonzero aggregate value. -/
theorem c3_amended_nonzero_stat_displayed_witness :
    (7 : Nat) ≠ 0 ∧
    displayedActiveTourists c3NonzeroStats [] = 7 ∧
    displayedActiveIncidents c3NonzeroStats [] = 7 ∧
    displayedSafeTourists c3NonzeroStats [] = 7 ∧
    displayedEfirsToday c3NonzeroStats = 7 := by
  have h := c3_amended_nonzero_stat_displayed c3NonzeroStats [] [] 7 (by decide)
  exact ⟨by decide, h.1 rfl, h.2.1 rfl, h.2.2.1 rfl, h.2.2.2 rfl⟩

/-- C4: when the server supplies neither active_incidents nor safe_tourists,
the displayed counts are derived locally as the number of incidents with
status active and the number of tourists with status safe. -/
theorem c4_local_derivation (stats : DashboardStats) (tourists : List Tourist)
    (incidents : List Incident) (hai : stats.active_incidents = none)
    (hst : stats.safe_tourists = none) :
    displayedActiveIncidents stats incidents
        = (incidents.filter (fun i => i.status == "active")).length ∧
    displayedSafeTourists stats tourists
        = (tourists.filter (fun t => t.status == "safe")).length := by
  constructor <;>
    simp [displayedActiveIncidents, displayedSafeTourists, jsOrNat, hai, hst]

/-- Stats object with no server-supplied active_incidents or safe_tourists. -/
def c4Stats : DashboardStats := ⟨some 4, none, none, some 3, none⟩

/-- Tourists with statuses safe, alert, emergency, safe. -/
def c4Tourists : List Tourist :=
  [⟨"1", "A", (28, 77), "safe", "", "", 80⟩,
    ⟨"2", "B", (28, 77), "alert", "", "", 60⟩,
    ⟨"3", "C", (28, 77), "emergency", "", "", 30⟩,
    ⟨"4", "D", (28, 77), "safe", "", "", 90⟩]

/-- Witness for C4: with no server-provided safe_tourists and statuses
safe, alert, emergency, safe, the derived safe count is 2. -/
theorem c4_local_derivation_witness :
    c4Stats.active_incidents = none ∧ c4Stats.safe_tourists = none ∧
    displayedSafeTourists c4Stats c4Tourists = 2 := by
  have h := c4_local_derivation c4Stats c4Tourists [] rfl rfl
  exact ⟨rfl, rfl, by rw [h.2]; decide⟩

/-- C5: when the persisted token is rejected at startup, because the
getCurrentUser response has no username field or the call fails, the session
ends logged out, the persisted token is removed from storage, and no
dashboard fetch is triggered. -/
theorem c5_rejected_token_goes_anonymous (resp : Except Unit Officer)
    (h : resp = .error () ∨ ∃ u, resp = .ok u ∧ u.username = none) :
    verifyToken resp = ⟨false, none, false, false⟩ := by
  rcases h with h | ⟨u, h, hu⟩
  · subst h; rfl
  · subst h; simp [verifyToken, jsTruthyStr, hu]

/-- Officer record returned without a username field. -/
def c5Officer : Officer :=
  ⟨none, "Mike Johnson", "mike@police.gov.in", "+91-1", "Tourist Police",
    "Inspector", "TP001", "officer"⟩

/-- Witness for C5 at a concrete response lacking the username field. -/
theorem c5_rejected_token_goes_anonymous_witness :
    c5Officer.username = none ∧
    verifyToken (.ok c5Officer) = ⟨false, none, false, false⟩ :=
  ⟨rfl, c5_rejected_token_goes_anonymous (.ok c5Officer)
    (Or.inr ⟨c5Officer, rfl, rfl⟩)⟩

/-- C6: getStatusColor is total on status strings, mapping safe to green,
alert to amber, emergency to red, and every other input to the default gray
(hex values 22c55e, f59e0b, ef4444 and 6b7280 respectively). -/
theorem c6_status_color_total (status : String)
    (h : status ≠ "safe" ∧ status ≠ "alert" ∧ status ≠ "emergency") :
    getStatusColor "safe" = "#22c55e" ∧ getStatusColor "alert" = "#f59e0b" ∧
    getStatusColor "emergency" = "#ef4444" ∧ getStatusColor status = "#6b7280" := by
  refine ⟨by decide, by decide, by decide, ?_⟩
  simp [getStatusColor, h.1, h.2.1, h.2.2]

/-- Witness for C6 at a status outside the three known values. -/
theorem c6_status_color_total_witness :
    ("unknown" : String) ≠ "safe" ∧ getStatusColor "unknown" = "#6b7280" :=
  ⟨by decide, (c6_status_color_total "unknown"
    ⟨by decide, by decide, by decide⟩).2.2.2⟩

/-- Mock tourist John Doe, used by the C7 case-insensitivity scenario. -/
def johnDoe : Tourist :=
  ⟨"1", "John Doe", (28, 77), "safe", "2 mins ago", "+91-9876543210", 85⟩

/-- C7: the tourist filter returns exactly the elements whose lowercased name
contains the lowercased query as a contiguous substring, as a stable
order-preserving sublist; the empty query returns the collection unchanged,
and filtering John Doe by the query john returns him. -/
theorem c7_filter_tourists_spec :
    (∀ (tourists : List Tourist) (searchQuery : String),
      List.Sublist (filterTourists tourists searchQuery) tourists ∧
      ∀ tourist, tourist ∈ filterTourists tourists searchQuery ↔
        tourist ∈ tourists ∧
          (jsToLowerCase searchQuery).toList <:+:
            (jsToLowerCase tourist.name).toList) ∧
    (∀ tourists : List Tourist, filterTourists tourists "" = tourists) ∧
    filterTourists [johnDoe] "john" = [johnDoe] := by
  refine ⟨fun T q => ⟨List.filter_sublist T, fun t => ?_⟩, fun T => ?_, by decide⟩
  · simp [filterTourists, jsIncludes, List.mem_filter]
  · apply List.filter_eq_self.mpr
    intro t _
    simp only [jsIncludes, decide_eq_true_eq]
    exact ⟨[], (jsToLowerCase t.name).toList, by simp [jsToLowerCase]⟩

/-- C8: a registration submission whose password and confirmation differ is
rejected by the first client-side check of handleRegister, before the
gateway is reached. -/
theorem c8_password_mismatch_local (d : RegisterData)
    (h : d.password ≠ d.confirmPassword) :
    handleRegister d = .validationError "Passwords do not match" := by
  simp [handleRegister, h]

/-- Registration form data with mismatching passwords abc123 and abc124. -/
def c8Data : RegisterData :=
  ⟨"officer1", "o@police.gov.in", "abc123", "abc124", "Officer One",
    "+91-9", "Tourist Police", "Inspector", "TP001", "officer"⟩

/-- Witness for C8 at the password pair abc123 and abc124. -/
theorem c8_password_mismatch_local_witness :
    c8Data.password ≠ c8Data.confirmPassword ∧
    handleRegister c8Data = .validationError "Passwords do not match" :=
  ⟨by decide, c8_password_mismatch_local c8Data (by decide)⟩

/-- C9: with matching passwords and some required field blank after trimming,
handleRegister fails locally, without reaching the gateway, with a message
listing the missing fields, and every blank required field appears in that
list. -/
theorem c9_blank_fields_local (d : RegisterData)
    (hpw : d.password = d.confirmPassword) (hm : missingFields d ≠ []) :
    handleRegister d = .validationError ("Please fill in all required fields: " ++
      String.intercalate ", " (missingFields d)) ∧
    ∀ field ∈ requiredFields, jsTrim (fieldValue d field) = "" →
      field ∈ missingFields d := by
  constructor
  · simp [handleRegister, hpw, List.length_pos, hm]
  · intro f hf hb
    simp [missingFields, List.mem_filter, hf, hb]

/-- Registration form data with every required field blank except the matching
password and confirmation. -/
def c9Blank : RegisterData :=
  ⟨"", "", "secret", "secret", "", "", "", "", "", "officer"⟩

/-- Witness for C9: the all-blank-except-password submission fails locally
listing all seven other required field names. -/
theorem c9_blank_fields_local_witness :
    c9Blank.password = c9Blank.confirmPassword ∧ missingFields c9Blank ≠ [] ∧
    missingFields c9Blank =
      ["username", "email", "full_name", "phone", "department", "rank", "station_id"] ∧
    handleRegister c9Blank = .validationError
      "Please fill in all required fields: username, email, full_name, phone, department, rank, station_id" := by
  have h := c9_blank_fields_local c9Blank rfl (by decide)
  refine ⟨rfl, by decide, by decide, ?_⟩
  rw [h.1]
  decide

/-- C10: the incident severity dot maps high to red and medium to yellow, and
every other severity value, including low, an unrecognized string, or an
absent severity field, falls through to the green indicator, making an
unknown severity visually indistinguishable from low severity. -/
theorem c10_severity_fallthrough_green (severity : Option String)
    (h1 : severity ≠ some "high") (h2 : severity ≠ some "medium") :
    incidentSeverityColor (some "high") = "bg-red-500" ∧
    incidentSeverityColor (some "medium") = "bg-yellow-500" ∧
    incidentSeverityColor severity = "bg-green-500" ∧
    incidentSeverityColor severity = incidentSeverityColor (some "low") ∧
    incidentSeverityColor severity = incidentSeverityColor none := by
  have hg : incidentSeverityColor severity = "bg-green-500" := by
    simp [incidentSeverityColor, h1, h2]
  exact ⟨by decide, by decide, hg, hg.trans (by decide), hg.trans (by decide)⟩

/-- Witness for C10 at an unrecognized severity string. -/
theorem c10_severity_fallthrough_green_witness :
    (some "catastrophic" : Option String) ≠ some "high" ∧
    incidentSeverityColor (some "catastrophic") = "bg-green-500" ∧
    incidentSeverityColor (some "catastrophic") = incidentSeverityColor none :=
  ⟨by decide,
    (c10_severity_fallthrough_green (some "catastrophic") (by decide) (by decide)).2.2.1,
    (c10_severity_fallthrough_green (some "catastrophic") (by decide) (by decide)).2.2.2.2⟩
